import Mathlib

/-!
Verification of the tool-connection orchestration and agent-turn execution
subsystem of viki.ai (`src/service/viki_ai/lib/util/ai_chat_utility.py`).

The Python code is shallowly embedded: `os.environ` becomes an explicit
environment value threaded through `configureLlm`; the recursive
`create_nested_connections` coroutine becomes a structurally recursive
function over the remaining tool configurations that also returns the list
of connection open/close events it performs; fallible calls (model
constructors, subprocess spawns, model invocations) are driven by oracles
supplying the outcome of the k-th call, and raising code returns `Except`.
-/

namespace VikiAi

/-! ## String helpers

Python's `needle in haystack` substring test and `str.lower()`. -/

/-- `startsWithL h n` is true when `n` is a prefix of `h` (over char lists). -/
def startsWithL : List Char → List Char → Bool
  | _, [] => true
  | [], _ :: _ => false
  | a :: h, b :: n => a = b && startsWithL h n

/-- `containsSubL h n` is true when `n` occurs contiguously inside `h`;
this models Python's `n in h` for strings. -/
def containsSubL : List Char → List Char → Bool
  | [], n => startsWithL [] n
  | c :: h, n => startsWithL (c :: h) n || containsSubL h n

/-- Python's substring containment `n in h`. -/
def containsSubstr (h n : String) : Bool :=
  containsSubL h.data n.data

theorem startsWithL_append (h n t : List Char) :
    startsWithL h n = true → startsWithL (h ++ t) n = true := by
  induction h generalizing n with
  | nil => intro hw; cases n with
    | nil => simp [startsWithL]
    | cons b bs => simp [startsWithL] at hw
  | cons a h ih => intro hw; cases n with
    | nil => simp [startsWithL]
    | cons b bs =>
      simp [startsWithL] at hw ⊢
      exact ⟨hw.1, ih bs hw.2⟩

theorem containsSubL_append_left (h n t : List Char) :
    containsSubL h n = true → containsSubL (h ++ t) n = true := by
  induction h with
  | nil =>
    intro hw
    cases n with
    | nil => cases t <;> simp [containsSubL, startsWithL]
    | cons b bs => simp [containsSubL, startsWithL] at hw
  | cons a h ih =>
    intro hw
    simp only [containsSubL, Bool.or_eq_true] at hw ⊢
    rcases hw with hw | hw
    · exact Or.inl (startsWithL_append _ _ _ hw)
    · exact Or.inr (ih hw)

/-- String-level corollary: if `n` occurs in `a` it occurs in `a ++ b`. -/
theorem containsSubstr_append_left (a b n : String) :
    containsSubstr a n = true → containsSubstr (a ++ b) n = true := by
  intro hw
  have : (a ++ b).data = a.data ++ b.data := by
    cases a; cases b; rfl
  simpa [containsSubstr, this] using containsSubL_append_left a.data n.data b.data hw

/-! ## Error taxonomy

The exception classes the code imports and branches on
(`ai_chat_utility.py` lines 22-32 and the except clauses). -/

/-- Kinds of Python exceptions distinguished by the code's except clauses. -/
inductive PyErrKind where
  | groqBadRequest      -- groq.BadRequestError
  | groqAPIConnection   -- groq.APIConnectionError
  | httpxConnect        -- httpx.ConnectError
  | httpcoreConnect     -- httpcore.ConnectError
  | httpxProxy          -- httpx.ProxyError
  | connectionErr       -- builtin ConnectionError
  | valueErr            -- builtin ValueError
  | otherErr            -- anything else (BlockingIOError, RuntimeError, ...)
  deriving DecidableEq, Repr

/-- A raised Python exception: its class together with `str(e)`. -/
structure PyErr where
  kind : PyErrKind
  msg : String
  deriving DecidableEq, Repr

/-- The tuple caught by
`except (GroqAPIConnectionError, HttpxConnectError, HttpcoreConnectError, HttpxProxyError, ConnectionError)`
at line 1302. -/
def isConnectionError (e : PyErr) : Bool :=
  match e.kind with
  | .groqAPIConnection | .httpxConnect | .httpcoreConnect | .httpxProxy | .connectionErr => true
  | _ => false

/-- The tool-call failure recognition of lines 975-977:
`("BadRequestError" in s and "tool_use_failed" in s) or ("Failed to call a function" in s)
or isinstance(e, GroqBadRequestError)`. -/
def isToolUseFailure (e : PyErr) : Bool :=
  (containsSubstr e.msg "BadRequestError" && containsSubstr e.msg "tool_use_failed")
    || containsSubstr e.msg "Failed to call a function"
    || e.kind == PyErrKind.groqBadRequest

/-! ## Process environment model

`os.environ` as a total lookup function; it is only ever observed through
lookups at string keys, so a function model is faithful. -/

/-- The process environment: key to optional value. -/
def Env : Type := String → Option String

/-- `os.environ[k] = v`. -/
def setVar (e : Env) (k v : String) : Env :=
  fun k' => if k' = k then some v else e k'

/-- `del os.environ[k]`. -/
def delVar (e : Env) (k : String) : Env :=
  fun k' => if k' = k then none else e k'

/-- The restore idiom used in the azure/aws `finally` blocks and in
`unset_proxy_variables`:
`if original is not None: os.environ[k] = original
 elif k in os.environ: del os.environ[k]`. -/
def restoreVar (e : Env) (k : String) (original : Option String) : Env :=
  match original with
  | some v => setVar e k v
  | none => if (e k).isSome then delVar e k else e

theorem setVar_same (e : Env) (k v : String) : setVar e k v k = some v := by
  simp [setVar]

theorem setVar_other (e : Env) (k v k' : String) (h : k' ≠ k) :
    setVar e k v k' = e k' := by
  simp [setVar, h]

theorem delVar_same (e : Env) (k : String) : delVar e k k = none := by
  simp [delVar]

theorem delVar_other (e : Env) (k k' : String) (h : k' ≠ k) :
    delVar e k k' = e k' := by
  simp [delVar, h]

/-- Restoring key `k` from the value it had in `e₀` brings the observation at
`k` back to `e₀ k`, whatever happened in between. -/
theorem restoreVar_same (e e₀ : Env) (k : String) :
    restoreVar e k (e₀ k) k = e₀ k := by
  unfold restoreVar
  cases h : e₀ k with
  | some v => simp [setVar]
  | none =>
    by_cases hs : (e k).isSome
    · simp [hs, delVar]
    · simp only [hs, if_neg, Bool.false_eq_true, not_false_eq_true, ite_false]
      cases he : e k with
      | some v => rw [he] at hs; simp at hs
      | none => rfl

theorem restoreVar_other (e : Env) (k k' : String) (o : Option String) (h : k' ≠ k) :
    restoreVar e k o k' = e k' := by
  unfold restoreVar
  cases o with
  | some v => simp [setVar, h]
  | none =>
    by_cases hs : (e k).isSome <;> simp [hs, delVar, h]

/-! ## Provider configuration (`configure_llm`)

`AIChatUtility.configure_llm` (lines 242-638).  The fields mirror the
attributes set in `__init__`; `config_file_content` (used only by the aws
branch) is modelled as an association list.  Whether a langchain model
constructor raises is supplied by the `ctorFails` argument, since that
depends on the network/library; every other branch of the Python function
is deterministic and embedded directly. -/

/-- The concrete langchain model class instantiated by each provider branch. -/
inductive ModelKind where
  | chatOllama | chatOpenAI | chatGroq | azureAI | chatHuggingFace
  | chatCerebras | chatOpenRouter | chatAnthropic | chatBedrock
  deriving DecidableEq, Repr

/-- Python truthiness for an optional string (`None` and `""` are falsy). -/
def truthy : Option String → Bool
  | none => false
  | some s => s ≠ ""

/-- `a or b` on optional strings under Python truthiness. -/
def pyOr (a b : Option String) : Option String :=
  if truthy a then a else b

/-- The instance attributes consulted by `configure_llm`. -/
structure LlmSettings where
  provider : String
  modelName : String
  apiKey : Option String
  baseUrl : Option String
  httpProxy : Option String
  httpsProxy : Option String
  configFileContent : List (String × String)
  deriving Repr

/-- `proxy_url = self.https_proxy or self.http_proxy`. -/
def LlmSettings.proxyUrl (s : LlmSettings) : Option String :=
  pyOr s.httpsProxy s.httpProxy

/-- `if self.http_proxy or self.https_proxy:`. -/
def LlmSettings.proxyConfigured (s : LlmSettings) : Bool :=
  truthy s.httpProxy || truthy s.httpsProxy

/-- Sets both `HTTP_PROXY` and `HTTPS_PROXY` to `u`. -/
def setBothProxies (e : Env) (u : String) : Env :=
  setVar (setVar e "HTTP_PROXY" u) "HTTPS_PROXY" u

/-- The azure branch (lines 320-354): sets `AZURE_INFERENCE_CREDENTIAL`
unconditionally, then saves/sets/restores the uppercase proxy variables
around the model constructor (restore in a `finally`, so also on raise). -/
def configureAzure (s : LlmSettings) (ctorFails : Bool) (env : Env) :
    Except PyErr ModelKind × Env :=
  if !truthy s.apiKey then
    (.error ⟨.valueErr, "API key is required for Azure AI"⟩, env)
  else
    let env1 := setVar env "AZURE_INFERENCE_CREDENTIAL" ((s.apiKey).getD "")
    let originalHttp := env1 "HTTP_PROXY"
    let originalHttps := env1 "HTTPS_PROXY"
    let env2 :=
      if s.proxyConfigured then
        match s.proxyUrl with
        | some u => setBothProxies env1 u
        | none => env1
      else env1
    let result : Except PyErr ModelKind :=
      if ctorFails then .error ⟨.otherErr, "AzureAIChatCompletionsModel construction failed"⟩
      else .ok .azureAI
    let env3 := restoreVar env2 "HTTP_PROXY" originalHttp
    let env4 := restoreVar env3 "HTTPS_PROXY" originalHttps
    (result, env4)

/-- The anthropic branch (lines 504-540).  NOTE the source saves
`original_http_proxy = self.http_proxy` — the instance attribute, not the
prior value of `os.environ["HTTP_PROXY"]` — and its `finally` block writes
those attributes back into the environment (or deletes the variables when
the attributes are `None`). -/
def configureAnthropic (s : LlmSettings) (ctorFails : Bool) (env : Env) :
    Except PyErr ModelKind × Env :=
  if !truthy s.apiKey then
    (.error ⟨.valueErr, "API key is required for Anthropic"⟩, env)
  else if s.modelName = "" then
    (.error ⟨.valueErr, "Model name is required for Anthropic"⟩, env)
  else
    let originalHttp := s.httpProxy
    let originalHttps := s.httpsProxy
    let env1 :=
      if s.proxyConfigured then
        match s.proxyUrl with
        | some u => setBothProxies env u
        | none => env
      else env
    let result : Except PyErr ModelKind :=
      if ctorFails then .error ⟨.otherErr, "ChatAnthropic construction failed"⟩
      else .ok .chatAnthropic
    let env2 := restoreVar env1 "HTTP_PROXY" originalHttp
    let env3 := restoreVar env2 "HTTPS_PROXY" originalHttps
    (result, env3)

/-- Sets all four proxy variables (huggingface branch, lines 383-386). -/
def setAllProxies (e : Env) (u : String) : Env :=
  setVar (setVar (setVar (setVar e "HTTP_PROXY" u) "HTTPS_PROXY" u) "http_proxy" u) "https_proxy" u

/-- The huggingface branch (lines 356-438).  With a proxy configured it
saves all four proxy variables, sets them, and restores them ONLY in the
`except` path; on constructor success the mutated variables are left in
place (there is no `finally`). -/
def configureHuggingface (s : LlmSettings) (ctorFails : Bool) (env : Env) :
    Except PyErr ModelKind × Env :=
  if !truthy s.apiKey then
    (.error ⟨.valueErr, "API key is required for HuggingFace"⟩, env)
  else if s.modelName = "" then
    (.error ⟨.valueErr, "Model name is required for HuggingFace"⟩, env)
  else
    if s.proxyConfigured then
      match s.proxyUrl with
      | some u =>
        let o1 := env "HTTP_PROXY"
        let o2 := env "HTTPS_PROXY"
        let o3 := env "http_proxy"
        let o4 := env "https_proxy"
        let env1 := setAllProxies env u
        if ctorFails then
          let env2 := restoreVar env1 "HTTP_PROXY" o1
          let env3 := restoreVar env2 "HTTPS_PROXY" o2
          let env4 := restoreVar env3 "http_proxy" o3
          let env5 := restoreVar env4 "https_proxy" o4
          (.error ⟨.valueErr, "HuggingFace proxy setup failed"⟩, env5)
        else
          (.ok .chatHuggingFace, env1)
      | none =>
        -- `if proxy_url:` guard fails: no mutation, plain construction
        (if ctorFails then .error ⟨.otherErr, "HuggingFaceEndpoint construction failed"⟩
         else .ok .chatHuggingFace, env)
    else
      (if ctorFails then .error ⟨.otherErr, "HuggingFaceEndpoint construction failed"⟩
       else .ok .chatHuggingFace, env)

/-- The aws branch (lines 542-617): credential validation, then the same
save/set/restore-in-finally proxy pattern as azure (uppercase only). -/
def configureAws (s : LlmSettings) (ctorFails : Bool) (env : Env) :
    Except PyErr ModelKind × Env :=
  if s.modelName = "" then
    (.error ⟨.valueErr, "Model name is required for AWS BedRock"⟩, env)
  else if s.configFileContent = [] then
    (.error ⟨.valueErr, "Configuration file is required for AWS BedRock"⟩, env)
  else if truthy (s.configFileContent.lookup "access_key") = false
       ∨ truthy (s.configFileContent.lookup "secret_key") = false
       ∨ truthy (s.configFileContent.lookup "region") = false then
    (.error ⟨.valueErr, "AWS BedRock configuration is missing required fields"⟩, env)
  else
    let originalHttp := env "HTTP_PROXY"
    let originalHttps := env "HTTPS_PROXY"
    let env1 :=
      if s.proxyConfigured then
        match s.proxyUrl with
        | some u => setBothProxies env u
        | none => env
      else env
    let result : Except PyErr ModelKind :=
      if ctorFails then .error ⟨.otherErr, "ChatBedrock construction failed"⟩
      else .ok .chatBedrock
    let env2 := restoreVar env1 "HTTP_PROXY" originalHttp
    let env3 := restoreVar env2 "HTTPS_PROXY" originalHttps
    (result, env3)

/-- A client-proxied branch (openai/groq/cerebras/openrouter): proxies are
passed to a per-call `httpx` client, never through `os.environ`. -/
def configureClientProxied (requiredKeyMsg : String) (needsModelName : Bool)
    (modelNameMsg : String) (mk : ModelKind) (ctorMsg : String)
    (s : LlmSettings) (ctorFails : Bool) (env : Env) :
    Except PyErr ModelKind × Env :=
  if !truthy s.apiKey then
    (.error ⟨.valueErr, requiredKeyMsg⟩, env)
  else if needsModelName ∧ s.modelName = "" then
    (.error ⟨.valueErr, modelNameMsg⟩, env)
  else
    (if ctorFails then .error ⟨.otherErr, ctorMsg⟩ else .ok mk, env)

/-- `AIChatUtility.configure_llm` (lines 242-638): dispatch on the
lowercased provider string.  Returns the configured model (or the raised
exception — the outer `except` only logs and re-raises) together with the
process environment after the call. -/
def configureLlm (s : LlmSettings) (ctorFails : Bool) (env : Env) :
    Except PyErr ModelKind × Env :=
  if s.provider = "ollama" then
    (if ctorFails then .error ⟨.otherErr, "ChatOllama construction failed"⟩
     else .ok .chatOllama, env)
  else if s.provider = "openai" then
    configureClientProxied "API key is required for OpenAI" false ""
      .chatOpenAI "ChatOpenAI construction failed" s ctorFails env
  else if s.provider = "groq" then
    configureClientProxied "API key is required for Groq" false ""
      .chatGroq "ChatGroq construction failed" s ctorFails env
  else if s.provider = "azure" then
    configureAzure s ctorFails env
  else if s.provider = "huggingface" then
    configureHuggingface s ctorFails env
  else if s.provider = "cerebras" then
    configureClientProxied "API key is required for Cerebras" true
      "Model name is required for Cerebras" .chatCerebras
      "ChatCerebras construction failed" s ctorFails env
  else if s.provider = "openrouter" then
    configureClientProxied "API key is required for OpenRouter" true
      "Model name is required for OpenRouter" .chatOpenRouter
      "ChatOpenAI construction failed" s ctorFails env
  else if s.provider = "anthropic" then
    configureAnthropic s ctorFails env
  else if s.provider = "aws" then
    configureAws s ctorFails env
  else
    (.error ⟨.valueErr, "Unsupported LLM provider: " ++ s.provider⟩, env)

theorem setBothProxies_other (e : Env) (u k' : String)
    (h1 : k' ≠ "HTTP_PROXY") (h2 : k' ≠ "HTTPS_PROXY") :
    setBothProxies e u k' = e k' := by
  unfold setBothProxies
  rw [setVar_other _ _ _ _ h2, setVar_other _ _ _ _ h1]

/-- In the azure branch the credential variable is set and kept while both
uppercase proxy variables are restored to their prior values, on both the
constructor-success and constructor-raise exit paths. -/
theorem configureAzure_env (s : LlmSettings) (cf : Bool) (env : Env)
    (hk : truthy s.apiKey = true) :
    ((configureAzure s cf env).2 "AZURE_INFERENCE_CREDENTIAL" = some (s.apiKey.getD ""))
    ∧ ((configureAzure s cf env).2 "HTTP_PROXY" = env "HTTP_PROXY")
    ∧ ((configureAzure s cf env).2 "HTTPS_PROXY" = env "HTTPS_PROXY") := by
  unfold configureAzure
  rw [hk]
  simp only [Bool.not_true, Bool.false_eq_true, if_false]
  set env1 := setVar env "AZURE_INFERENCE_CREDENTIAL" (s.apiKey.getD "") with henv1
  set env2 := (if s.proxyConfigured then
      match s.proxyUrl with
      | some u => setBothProxies env1 u
      | none => env1
    else env1) with henv2
  have hAZ2 : env2 "AZURE_INFERENCE_CREDENTIAL" = some (s.apiKey.getD "") := by
    have hbase : env1 "AZURE_INFERENCE_CREDENTIAL" = some (s.apiKey.getD "") :=
      setVar_same _ _ _
    rw [henv2]
    split
    · cases hu : s.proxyUrl with
      | some u => simpa [hu] using (setBothProxies_other env1 u _ (by decide) (by decide)).trans hbase
      | none => simpa [hu] using hbase
    · exact hbase
  have hH2 : env1 "HTTP_PROXY" = env "HTTP_PROXY" :=
    setVar_other _ _ _ _ (by decide)
  have hS2 : env1 "HTTPS_PROXY" = env "HTTPS_PROXY" :=
    setVar_other _ _ _ _ (by decide)
  refine ⟨?_, ?_, ?_⟩
  · rw [restoreVar_other _ _ _ _ (by decide), restoreVar_other _ _ _ _ (by decide)]
    exact hAZ2
  · rw [restoreVar_other _ _ _ _ (by decide)]
    rw [restoreVar_same env2 env1 "HTTP_PROXY"]
    exact hH2
  · rw [restoreVar_same _ env1 "HTTPS_PROXY"]
    exact hS2

/-- C10: with provider kind azure and a non-empty api key, `configure_llm`
sets the process-wide `AZURE_INFERENCE_CREDENTIAL` to the api key and never
restores it, on every exit path, while the `HTTP_PROXY`/`HTTPS_PROXY`
variables mutated in the same branch are restored to their prior values. -/
theorem c10_azure_credential_persists
    (k mn : String) (hk : k ≠ "")
    (burl hp hps : Option String) (cf : Bool) (env : Env) :
    ((configureLlm ⟨"azure", mn, some k, burl, hp, hps, []⟩ cf env).2
        "AZURE_INFERENCE_CREDENTIAL" = some k)
    ∧ ((configureLlm ⟨"azure", mn, some k, burl, hp, hps, []⟩ cf env).2
        "HTTP_PROXY" = env "HTTP_PROXY")
    ∧ ((configureLlm ⟨"azure", mn, some k, burl, hp, hps, []⟩ cf env).2
        "HTTPS_PROXY" = env "HTTPS_PROXY") := by
  have hdisp : configureLlm ⟨"azure", mn, some k, burl, hp, hps, []⟩ cf env
      = configureAzure ⟨"azure", mn, some k, burl, hp, hps, []⟩ cf env := rfl
  rw [hdisp]
  exact configureAzure_env _ cf env (by simp [truthy, hk])

/-- Witness for `c10_azure_credential_persists` at a concrete input. -/
theorem c10_azure_credential_persists_witness :
    ((configureLlm ⟨"azure", "gpt-4o", some "sk-azure-key", none, none,
        some "http://proxy.example:8080", []⟩ true
        (fun k => if k = "HTTP_PROXY" then some "http://old.example:1" else none)).2
        "AZURE_INFERENCE_CREDENTIAL" = some "sk-azure-key")
    ∧ ((configureLlm ⟨"azure", "gpt-4o", some "sk-azure-key", none, none,
        some "http://proxy.example:8080", []⟩ true
        (fun k => if k = "HTTP_PROXY" then some "http://old.example:1" else none)).2
        "HTTP_PROXY" = some "http://old.example:1") :=
  have h := c10_azure_credential_persists "sk-azure-key" "gpt-4o" (by decide)
    none none (some "http://proxy.example:8080") true
    (fun k => if k = "HTTP_PROXY" then some "http://old.example:1" else none)
  ⟨h.1, h.2.1⟩

/-! ## C2: proxy isolation (code bug)

The claim says every provider kind fully reverts the `HTTP_PROXY` and
`HTTPS_PROXY` mutations after the call.  The anthropic branch saves
`self.http_proxy`/`self.https_proxy` (the instance attributes) instead of
the prior environment values, so its `finally` block writes the configured
proxy back into the ambient environment and deletes any pre-existing value
of the variable it did not configure. -/

/-- Ambient environment before the call: a corporate `HTTP_PROXY` is set. -/
def c2PriorEnv : Env :=
  fun k => if k = "HTTP_PROXY" then some "http://corp-proxy.example:80" else none

/-- Anthropic provider configured with only an HTTPS proxy. -/
def c2Settings : LlmSettings :=
  { provider := "anthropic", modelName := "claude-3", apiKey := some "sk-key",
    baseUrl := none, httpProxy := none, httpsProxy := some "http://llm-proxy.example:8080",
    configFileContent := [] }

/-- C2 fails on the code: after a successful anthropic `configure_llm` call,
`HTTPS_PROXY` persists as the configured proxy (it was unset before) and the
pre-existing `HTTP_PROXY` has been deleted — ambient proxy state is not
reverted to its prior value. -/
theorem c2_anthropic_proxy_persists :
    ((configureLlm c2Settings false c2PriorEnv).1 = .ok .chatAnthropic)
    ∧ ((configureLlm c2Settings false c2PriorEnv).2 "HTTPS_PROXY"
        = some "http://llm-proxy.example:8080")
    ∧ (c2PriorEnv "HTTPS_PROXY" = none)
    ∧ ((configureLlm c2Settings false c2PriorEnv).2 "HTTP_PROXY" = none)
    ∧ (c2PriorEnv "HTTP_PROXY" = some "http://corp-proxy.example:80") := by
  refine ⟨rfl, by decide, rfl, by decide, rfl⟩

/-! ## Tool configurations and a turn's oracles

One agent turn interacts with the outside world at four points: the
`configure_llm` call, each MCP connection establishment
(`_managed_mcp_session` enter + `load_mcp_tools`), each REACT-agent
invocation (`agent.ainvoke`), and each direct model invocation
(`model.ainvoke`).  A `TurnOracle` fixes the outcome of the k-th call of
each kind; everything else in the turn is deterministic and embedded
directly from the source. -/

/-- One entry of `agent_mcp_configs` (built in `chat_router.py` lines
441-447): identifies how to launch one tool subprocess. -/
structure ToolCfg where
  toolId : String
  toolName : String
  mcpCommand : String
  env : List (String × String)
  deriving Repr

/-- Outcome of one connection-establishment attempt
(`_managed_mcp_session` enter followed by `load_mcp_tools`). -/
inductive EstabOutcome where
  | ok (tools : List String)  -- session established, these function names loaded
  | failEarly                 -- spawn/handshake raised: no connection was opened
  | failAfterOpen             -- subprocess opened, then initialize/load raised
  deriving Repr

/-- Outcome of one `agent.ainvoke` call. -/
inductive AgentOutcome where
  | ok (resp : String)
  | raise (e : PyErr)
  deriving Repr

/-- Outcome of one direct `model.ainvoke` call. -/
inductive DirectOutcome where
  | ok (resp : String)
  | raise (e : PyErr)
  deriving Repr

/-- The environment of one turn: outcomes of all outside-world calls. -/
structure TurnOracle where
  configure : Option PyErr    -- does `configure_llm` raise?
  estab : Nat → EstabOutcome  -- k-th establishment attempt of the turn
  agent : Nat → AgentOutcome  -- n-th `agent.ainvoke` of the turn
  direct : Nat → DirectOutcome -- k-th direct `model.ainvoke` of the turn

/-- Observable events of the persistent-connection session.  Connections are
identified by the establishment-attempt counter, so ids are fresh. -/
inductive TurnEvent where
  | openConn (cid : Nat)
  | closeConn (cid : Nat)
  | agentRun (n : Nat) (tools : List String)
  deriving DecidableEq, Repr

/-- Mutable state of `load_agent_specific_tools_with_persistent_connections`:
the `all_tools` accumulator plus the two oracle call counters. -/
structure CNState where
  nextEstab : Nat
  nextAgent : Nat
  allTools : List String
  deriving Repr

/-! ## Agent-loop error recovery (lines 972-1007) -/

/-- The clarifying message for a `get_column_details` call missing its
schema argument (lines 983-991). -/
def colDetailsClarifyMsg : String :=
  "I tried to get column details for a table, but the function requires both a table name AND a schema. For OFSLL database tables, the schema is typically \x27public\x27. Could you please specify what specific information you\x27re looking for? For example:\n\n- \x27Show me the structure of the ACCOUNTS table\x27\n- \x27What columns are in the CUSTOMERS table?\x27\n- \x27Get details for a specific account number\x27\n\nI\x27ll make sure to include the proper schema when calling the function."

/-- The generic clarifying message for a failed tool call (lines 993-1003). -/
def genericToolClarifyMsg : String :=
  "I encountered an error when trying to use a tool. It seems like the tool requires specific parameters that weren\x27t provided correctly. Could you please provide more specific information about what you\x27re looking for? For example:\n\n- If you want account details, please provide the account number\n- If you want column details, please specify the table name\n- If you want to make a payment, please provide the payment details\n\nTechnical error: Tool call failed with incomplete arguments"

/-- Chooses the clarifying assistant message from the error text
(lines 980-1003). -/
def clarifyMsg (errStr : String) : String :=
  if containsSubstr errStr "get_column_details" && containsSubstr errStr "table_name"
  then colDetailsClarifyMsg else genericToolClarifyMsg

/-- `create_nested_connections` (lines 945-1032), returning the agent
response (`.ok (some msgs)`), `.ok none` when no tools were loaded, or the
exception that escaped (`.error`), together with the final state and the
connection open/close and agent-run events in order.

Base case (all contexts consumed): if `all_tools` is empty return `None`;
otherwise run the REACT agent; a raised error recognized by
`isToolUseFailure` is converted into a clarifying assistant message, any
other error re-raises.  Recursive case: enter `_managed_mcp_session` for
the next context; on success, load its tools and recurse inside the
session's scope (so the connection closes after the inner call returns OR
raises); the `except Exception` around the whole block then continues with
the remaining contexts. -/
def createNested (o : TurnOracle) :
    List ToolCfg → CNState → Except PyErr (Option (List String)) × CNState × List TurnEvent
  | [], st =>
    if st.allTools = [] then
      -- "No tools loaded from any connection" → return None (lines 954-956)
      (.ok none, st, [])
    else
      let n := st.nextAgent
      let st1 : CNState := { st with nextAgent := n + 1 }
      match o.agent n with
      | .ok resp => (.ok (some [resp]), st1, [.agentRun n st.allTools])
      | .raise e =>
        if isToolUseFailure e then
          (.ok (some [clarifyMsg e.msg]), st1, [.agentRun n st.allTools])
        else
          (.error e, st1, [.agentRun n st.allTools])
  | _ctx :: rest, st =>
    let k := st.nextEstab
    let st1 : CNState := { st with nextEstab := k + 1 }
    match o.estab k with
    | .failEarly =>
      -- entering the session raised before the connection opened;
      -- the except logs and continues with the remaining contexts
      createNested o rest st1
    | .failAfterOpen =>
      -- the connection opened, then initialize/load raised: the context
      -- manager closes it, the except continues with the rest
      match createNested o rest st1 with
      | (r, st2, ev) => (r, st2, .openConn k :: .closeConn k :: ev)
    | .ok tools =>
      let st2 : CNState := { st1 with allTools := st1.allTools ++ tools }
      match createNested o rest st2 with
      | (.ok v, st3, ev) =>
        (.ok v, st3, .openConn k :: (ev ++ [.closeConn k]))
      | (.error _e, st3, ev) =>
        -- an exception propagated out of the nested scope: this session's
        -- context manager closes the connection, then the except catches
        -- the error and re-runs the remaining contexts (line 1032)
        match createNested o rest st3 with
        | (r2, st4, ev2) => (r2, st4, .openConn k :: (ev ++ [.closeConn k] ++ ev2))

/-- `load_agent_specific_tools_with_persistent_connections` (lines
890-1040): `None` when there are no configs or when an exception escapes
`create_nested_connections` (the outer `except` at line 1038). -/
def loadPersistent (o : TurnOracle) (cfgs : List ToolCfg) :
    Option (List String) × List TurnEvent :=
  if cfgs.isEmpty then (none, [])
  else
    match createNested o cfgs ⟨0, 0, []⟩ with
    | (.ok v, _, ev) => (v, ev)
    | (.error _, _, ev) => (none, ev)

/-! ## The turn result contract and the direct-invocation retry loop -/

/-- The dictionary returned by `generate_response`; absent keys are `none`. -/
structure TurnResult where
  success : Bool
  response : Option String
  error : Option String
  usedTools : Option Bool
  deriving DecidableEq, Repr

/-- `str(content) if content else "No response generated"`. -/
def respText (c : String) : String :=
  if c = "" then "No response generated" else c

/-- Python `str(x)` of an optional string (prints `None` when absent). -/
def optStr : Option String → String
  | none => "None"
  | some s => s

/-- The error string built after retry exhaustion (lines 1317-1321). -/
def connExhaustedError (hp hps : Option String) : String :=
  "Connection failed after 3 attempts. This might be due to proxy configuration issues in your corporate network. Please check your proxy settings."
  ++ (if truthy hp || truthy hps then
        " Current proxy settings - HTTP: " ++ optStr hp ++ ", HTTPS: " ++ optStr hps
      else
        " No proxy is configured - you may need to set HTTP_PROXY and HTTPS_PROXY environment variables or configure them in the application.")

/-- The structured failure returned after connection-retry exhaustion
(lines 1324-1328). -/
def connExhaustedResult (hp hps : Option String) : TurnResult :=
  { success := false
    response := some "Unable to connect to the AI service. Please check your network connection and proxy settings."
    error := some (connExhaustedError hp hps)
    usedTools := none }

/-- Successful direct invocation (lines 1294-1298). -/
def directSuccessResult (r : String) : TurnResult :=
  { success := true, response := some (respText r), error := none, usedTools := some false }

/-- The defensive "should not happen" branch (lines 1332-1340). -/
def unexpectedNoErrorResult : TurnResult :=
  { success := false
    response := some "I apologize, but I encountered an unexpected error while processing your request. Please try again."
    error := some "Unexpected error: All retry attempts failed without an error being captured"
    usedTools := none }

/-- The direct-invocation retry loop (lines 1277-1340): up to
`max_retries = 3` attempts, retrying only the recognized connection-error
tuple with delay `base_delay * 2^attempt` (1s, 2s); any other exception
propagates out of the loop; exhaustion yields the structured failure.
Returns the outcome, the sleeps performed (ms), and the number of
`model.ainvoke` calls made.  `fuel` is `max_retries - attempt`. -/
def directAttempts (o : TurnOracle) (hp hps : Option String) :
    Nat → Nat → Except PyErr TurnResult × List Nat × Nat
  | attempt, fuel + 1 =>
    match o.direct attempt with
    | .ok r => (.ok (directSuccessResult r), [], 1)
    | .raise e =>
      if isConnectionError e then
        if fuel = 0 then (.ok (connExhaustedResult hp hps), [], 1)
        else
          match directAttempts o hp hps (attempt + 1) fuel with
          | (res, ds, c) => (res, (1000 * 2 ^ attempt) :: ds, c + 1)
      else (.error e, [], 1)
  | _, 0 => (.ok unexpectedNoErrorResult, [], 0)

/-! ## `generate_response` (lines 1187-1360) -/

/-- `any(t in str(e).lower() for t in ["connection","proxy","network","timeout"])`
(line 1348). -/
def looksNetworkRelated (msg : String) : Bool :=
  let lower := msg.toLower
  containsSubstr lower "connection" || containsSubstr lower "proxy"
    || containsSubstr lower "network" || containsSubstr lower "timeout"

/-- Canned user-safe response for network-looking unclassified errors. -/
def netHelpApologyResp : String :=
  "I apologize, but I\x27m having trouble connecting to the AI service. Please check your network connection and try again."

/-- Canned user-safe response for all other unclassified errors. -/
def genericApologyResp : String :=
  "I apologize, but I encountered an error while processing your request. Please try again."

/-- The outer `except Exception` boundary of `generate_response`
(lines 1342-1360). -/
def outerHandler (e : PyErr) : TurnResult :=
  let errorMsg := "Error generating AI response: " ++ e.msg
  if looksNetworkRelated e.msg then
    { success := false
      response := some netHelpApologyResp
      error := some (errorMsg ++ ". This appears to be a network connectivity issue. If you\x27re in a corporate network, please ensure your proxy settings are correctly configured.")
      usedTools := none }
  else
    { success := false
      response := some genericApologyResp
      error := some errorMsg
      usedTools := none }

/-- `agent_response["messages"][-1].content` with the falsy-content check. -/
def agentMsgsText (msgs : List String) : String :=
  respText (msgs.getLast?.getD "")

/-- Everything inside the outer `try` of `generate_response`:
runs the persistent-connection agent path when tool configs are present,
then falls back to the direct-invocation retry loop when no agent response
was produced.  `.error` is an exception about to hit the outer boundary. -/
def generateResponseInner (hp hps : Option String) (o : TurnOracle)
    (cfgs : List ToolCfg) :
    Except PyErr TurnResult × List TurnEvent × List Nat × Nat :=
  match o.configure with
  | some e => (.error e, [], [], 0)
  | none =>
    match loadPersistent o cfgs with
    | (some msgs, ev) =>
      if msgs.isEmpty then
        -- falsy `agent_response["messages"]` → direct invocation
        match directAttempts o hp hps 0 3 with
        | (r, ds, c) => (r, ev, ds, c)
      else
        (.ok { success := true, response := some (agentMsgsText msgs),
               error := none, usedTools := some true }, ev, [], 0)
    | (none, ev) =>
      match directAttempts o hp hps 0 3 with
      | (r, ds, c) => (r, ev, ds, c)

/-- The full observable outcome of one `generate_response` turn. -/
structure TurnOutput where
  result : TurnResult
  events : List TurnEvent
  delays : List Nat
  directCalls : Nat
  deriving Repr

/-- `generate_response`: the inner pipeline wrapped by the outer
`except Exception` boundary — a total function into `TurnResult`. -/
def generateResponse (hp hps : Option String) (o : TurnOracle)
    (cfgs : List ToolCfg) : TurnOutput :=
  match generateResponseInner hp hps o cfgs with
  | (.ok r, ev, ds, c) => ⟨r, ev, ds, c⟩
  | (.error e, ev, ds, c) => ⟨outerHandler e, ev, ds, c⟩

/-! ## C1: teardown discipline of the persistent session -/

/-- The connection ids opened, in order of acquisition. -/
def opensOf : List TurnEvent → List Nat
  | [] => []
  | .openConn c :: t => c :: opensOf t
  | _ :: t => opensOf t

/-- The connection ids closed, in order of closing. -/
def closesOf : List TurnEvent → List Nat
  | [] => []
  | .closeConn c :: t => c :: closesOf t
  | _ :: t => closesOf t

theorem opensOf_append (a b : List TurnEvent) :
    opensOf (a ++ b) = opensOf a ++ opensOf b := by
  induction a with
  | nil => rfl
  | cons e t ih => cases e <;> simp [opensOf, ih]

theorem closesOf_append (a b : List TurnEvent) :
    closesOf (a ++ b) = closesOf a ++ closesOf b := by
  induction a with
  | nil => rfl
  | cons e t ih => cases e <;> simp [closesOf, ih]

/-- A stack machine over the event list: `openConn` pushes its id,
`closeConn` pops and must match the top of the stack (LIFO discipline),
other events are ignored; `none` signals a discipline violation. -/
def runStack : List TurnEvent → List Nat → Option (List Nat)
  | [], s => some s
  | .openConn c :: t, s => runStack t (c :: s)
  | .closeConn c :: t, s =>
    match s with
    | c' :: s' => if c = c' then runStack t s' else none
    | [] => none
  | .agentRun _ _ :: t, s => runStack t s

theorem runStack_append (a b : List TurnEvent) (s : List Nat) :
    runStack (a ++ b) s = (runStack a s).bind (fun s' => runStack b s') := by
  induction a generalizing s with
  | nil => simp [runStack]
  | cons e t ih =>
    cases e with
    | openConn c => simp [runStack, ih]
    | closeConn c =>
      cases s with
      | nil => simp [runStack]
      | cons c' s' =>
        by_cases h : c = c' <;> simp [runStack, h, ih]
    | agentRun n ts => simp [runStack, ih]

/-- Every exit path of `create_nested_connections` leaves the connection
stack exactly as it found it: each opened connection is closed by the
most-recently-opened-first rule.  This holds whether the result is a
normal return, a skipped connection, or a propagating exception. -/
theorem createNested_balanced (o : TurnOracle) :
    ∀ (rest : List ToolCfg) (st : CNState) (s : List Nat),
      runStack (createNested o rest st).2.2 s = some s := by
  intro rest
  induction rest with
  | nil =>
    intro st s
    by_cases h : st.allTools = []
    · simp [createNested, h, runStack]
    · cases ha : o.agent st.nextAgent with
      | ok r => simp [createNested, h, ha, runStack]
      | raise e =>
        by_cases ht : isToolUseFailure e <;>
          simp [createNested, h, ha, ht, runStack]
  | cons c rest ih =>
    intro st s
    cases he : o.estab st.nextEstab with
    | failEarly =>
      simpa [createNested, he] using ih _ s
    | failAfterOpen =>
      rcases h1 : createNested o rest { st with nextEstab := st.nextEstab + 1 } with ⟨r, st2, ev⟩
      have hs := ih { st with nextEstab := st.nextEstab + 1 } s
      rw [h1] at hs
      simp only [createNested, he, h1]
      simpa [runStack] using hs
    | ok tools =>
      rcases h1 : createNested o rest
          { st with nextEstab := st.nextEstab + 1,
                    allTools := st.allTools ++ tools } with ⟨r1, st3, ev1⟩
      have hs1 := ih { st with nextEstab := st.nextEstab + 1,
                               allTools := st.allTools ++ tools } (st.nextEstab :: s)
      rw [h1] at hs1
      cases r1 with
      | ok v =>
        simp only [createNested, he, h1]
        simp only [runStack, runStack_append]
        rw [hs1]
        simp [runStack]
      | error e =>
        rcases h2 : createNested o rest st3 with ⟨r2, st4, ev2⟩
        have hs2 := ih st3 s
        rw [h2] at hs2
        simp only [createNested, he, h1, h2]
        simp only [runStack, runStack_append]
        rw [hs1]
        simp [runStack, hs2]

/-- Every connection id is opened and closed the same number of times in a
turn's event list (with `createNested_balanced` and fresh ids: closed
exactly once per open). -/
theorem createNested_open_close_count (o : TurnOracle) :
    ∀ (rest : List ToolCfg) (st : CNState) (c : Nat),
      (opensOf (createNested o rest st).2.2).count c
        = (closesOf (createNested o rest st).2.2).count c := by
  intro rest
  induction rest with
  | nil =>
    intro st c
    by_cases h : st.allTools = []
    · simp [createNested, h, opensOf, closesOf]
    · cases ha : o.agent st.nextAgent with
      | ok r => simp [createNested, h, ha, opensOf, closesOf]
      | raise e =>
        by_cases ht : isToolUseFailure e <;>
          simp [createNested, h, ha, ht, opensOf, closesOf]
  | cons c0 rest ih =>
    intro st c
    cases he : o.estab st.nextEstab with
    | failEarly =>
      simpa [createNested, he] using ih _ c
    | failAfterOpen =>
      rcases h1 : createNested o rest { st with nextEstab := st.nextEstab + 1 } with ⟨r, st2, ev⟩
      have hc := ih { st with nextEstab := st.nextEstab + 1 } c
      rw [h1] at hc
      simp only [createNested, he, h1]
      simp [opensOf, closesOf, List.count_cons, hc]
    | ok tools =>
      rcases h1 : createNested o rest
          { st with nextEstab := st.nextEstab + 1,
                    allTools := st.allTools ++ tools } with ⟨r1, st3, ev1⟩
      have hc1 := ih { st with nextEstab := st.nextEstab + 1,
                               allTools := st.allTools ++ tools } c
      rw [h1] at hc1
      cases r1 with
      | ok v =>
        simp only [createNested, he, h1]
        simp [opensOf, closesOf, opensOf_append, closesOf_append,
              List.count_cons, List.count_append, hc1]
      | error e =>
        rcases h2 : createNested o rest st3 with ⟨r2, st4, ev2⟩
        have hc2 := ih st3 c
        rw [h2] at hc2
        simp only [createNested, he, h1, h2]
        simp [opensOf, closesOf, opensOf_append, closesOf_append,
              List.count_cons, List.count_append, hc1, hc2]
        omega

/-- Two tool configurations for the C1 counterexample. -/
def c1Cfgs : List ToolCfg :=
  [⟨"tool-a", "tool-a", "uv run server-a", []⟩,
   ⟨"tool-b", "tool-b", "uv run server-b", []⟩]

/-- Both establishments succeed; the model raises an unclassified error on
its first two invocations and answers on the third. -/
def c1Oracle : TurnOracle :=
  { configure := none
    estab := fun _ => .ok ["fn"]
    agent := fun n => if n < 2 then .raise ⟨.otherErr, "model backend exploded"⟩
                      else .ok "final answer"
    direct := fun _ => .ok "direct answer" }

/-- C1 counterexample: on the model-error exit path the `except` around
each nested connection catches the propagating exception and re-establishes
the remaining connections, so connection 0 is closed BEFORE the
later-acquired connection 2 is even opened — the closes `[1, 0, 2]` are not
the strict reverse `[2, 1, 0]` of the acquisitions `[0, 1, 2]`. -/
theorem c1_reverse_order_counterexample :
    opensOf (createNested c1Oracle c1Cfgs ⟨0, 0, []⟩).2.2 = [0, 1, 2]
    ∧ closesOf (createNested c1Oracle c1Cfgs ⟨0, 0, []⟩).2.2 = [1, 0, 2]
    ∧ closesOf (createNested c1Oracle c1Cfgs ⟨0, 0, []⟩).2.2
        ≠ (opensOf (createNested c1Oracle c1Cfgs ⟨0, 0, []⟩).2.2).reverse := by
  refine ⟨by decide, by decide, by decide⟩

/-- C1 (amended): every connection opened during a turn is closed exactly
once and teardown obeys stack (LIFO) discipline — each close is of the most
recently opened still-open connection, on every exit path; but after an
exception escapes the agent invocation, fresh connections can be opened
after earlier ones closed, so the claim's global strict-reverse-acquisition
order does not hold (see the counterexample). -/
theorem c1_cleanup_lifo (o : TurnOracle) (cfgs : List ToolCfg) :
    runStack (createNested o cfgs ⟨0, 0, []⟩).2.2 [] = some []
    ∧ ∀ c, (opensOf (createNested o cfgs ⟨0, 0, []⟩).2.2).count c
        = (closesOf (createNested o cfgs ⟨0, 0, []⟩).2.2).count c :=
  ⟨createNested_balanced o cfgs ⟨0, 0, []⟩ [],
   fun c => createNested_open_close_count o cfgs ⟨0, 0, []⟩ c⟩

/-! ## C3, C7, C8: completing the turn with the successfully connected subset -/

/-- The function names collected from the establishment attempts that
succeed, in configuration-list order, starting at attempt counter `k`. -/
def sfTools (o : TurnOracle) : Nat → List ToolCfg → List String
  | _, [] => []
  | k, _ :: rest =>
    (match o.estab k with | .ok tools => tools | _ => []) ++ sfTools o (k + 1) rest

/-- The agent response produced by the base case of
`create_nested_connections` when the invocation does not re-raise:
either the model's answer or the clarifying assistant message. -/
def agentHandled : AgentOutcome → Option String
  | .ok r => some r
  | .raise e => if isToolUseFailure e then some (clarifyMsg e.msg) else none

theorem clarifyMsg_ne_empty (m : String) : clarifyMsg m ≠ "" := by
  unfold clarifyMsg
  split
  · decide
  · decide

/-- When the (single) agent invocation of the turn is handled — the model
answers, or raises a recognized tool-call failure — the session returns
that response built over exactly the successfully loaded toolset, and every
agent invocation runs with exactly that toolset. -/
theorem createNested_handled (o : TurnOracle) (s : String) :
    ∀ (rest : List ToolCfg) (st : CNState),
      agentHandled (o.agent st.nextAgent) = some s →
      (createNested o rest st).1
        = .ok (if st.allTools ++ sfTools o st.nextEstab rest = [] then none else some [s])
      ∧ ∀ n ts, TurnEvent.agentRun n ts ∈ (createNested o rest st).2.2 →
          ts = st.allTools ++ sfTools o st.nextEstab rest := by
  intro rest
  induction rest with
  | nil =>
    intro st hs
    by_cases h : st.allTools = []
    · simp [createNested, h, sfTools]
    · cases ha : o.agent st.nextAgent with
      | ok r =>
        have hr : r = s := by simpa [agentHandled, ha] using hs
        subst hr
        simp [createNested, h, ha, sfTools]
      | raise e =>
        rw [ha] at hs
        unfold agentHandled at hs
        by_cases ht : isToolUseFailure e
        · simp only [ht, if_true, Option.some.injEq] at hs
          simp [createNested, h, ha, ht, sfTools, hs]
        · simp [ht] at hs
  | cons c rest ih =>
    intro st hs
    cases he : o.estab st.nextEstab with
    | failEarly =>
      have hih := ih { st with nextEstab := st.nextEstab + 1 } hs
      simp only [createNested, he]
      simpa [sfTools, he] using hih
    | failAfterOpen =>
      rcases h1 : createNested o rest { st with nextEstab := st.nextEstab + 1 } with ⟨r, st2, ev⟩
      have hih := ih { st with nextEstab := st.nextEstab + 1 } hs
      rw [h1] at hih
      simp only [createNested, he, h1]
      refine ⟨by simpa [sfTools, he] using hih.1, ?_⟩
      intro n ts hmem
      simp only [List.mem_cons, reduceCtorEq, false_or] at hmem
      simpa [sfTools, he] using hih.2 n ts hmem
    | ok tools =>
      rcases h1 : createNested o rest
          { st with nextEstab := st.nextEstab + 1,
                    allTools := st.allTools ++ tools } with ⟨r1, st3, ev1⟩
      have hih := ih { st with nextEstab := st.nextEstab + 1,
                               allTools := st.allTools ++ tools } hs
      rw [h1] at hih
      cases r1 with
      | error e =>
        exact absurd hih.1 (by simp)
      | ok v =>
        simp only [createNested, he, h1]
        have hv : v = if st.allTools ++ sfTools o st.nextEstab (c :: rest) = [] then none
            else some [s] := by
          have := hih.1
          simp only [Except.ok.injEq] at this
          rw [this]
          simp [sfTools, he, List.append_assoc]
        refine ⟨by rw [hv], ?_⟩
        intro n ts hmem
        simp only [List.mem_cons, List.mem_append, List.mem_singleton, reduceCtorEq,
          false_or, or_false, List.not_mem_nil] at hmem
        have hts := hih.2 n ts hmem
        simpa [sfTools, he, List.append_assoc] using hts

/-- C3: whatever subset of the configured tool connections fails to
establish (including all of them), the turn completes: the result is
successful, every agent invocation uses exactly the functions of the
successfully connected subset, and with an empty subset the turn degrades
to direct model invocation — it never fails solely because of
tool-connection failure. -/
theorem c3_partial_failure_completes (o : TurnOracle) (cfgs : List ToolCfg)
    (hp hps : Option String) (r rd : String)
    (hconf : o.configure = none)
    (hagent : o.agent 0 = .ok r)
    (hdirect : o.direct 0 = .ok rd) :
    (generateResponse hp hps o cfgs).result.success = true
    ∧ (∀ n ts, TurnEvent.agentRun n ts ∈ (generateResponse hp hps o cfgs).events →
        ts = sfTools o 0 cfgs)
    ∧ (sfTools o 0 cfgs = [] →
        (generateResponse hp hps o cfgs).result.usedTools = some false
        ∧ (generateResponse hp hps o cfgs).result.response = some (respText rd))
    ∧ (sfTools o 0 cfgs ≠ [] →
        (generateResponse hp hps o cfgs).result.usedTools = some true
        ∧ (generateResponse hp hps o cfgs).result.response = some (respText r)) := by
  have hs : agentHandled (o.agent 0) = some r := by simp [agentHandled, hagent]
  cases cfgs with
  | nil =>
    simp [generateResponse, generateResponseInner, hconf, loadPersistent,
          directAttempts, hdirect, directSuccessResult, sfTools]
  | cons c cs =>
    have hlem := createNested_handled o r (c :: cs) ⟨0, 0, []⟩ hs
    rcases hcn : createNested o (c :: cs) ⟨0, 0, []⟩ with ⟨res, st', ev⟩
    rw [hcn] at hlem
    simp only [List.nil_append] at hlem
    by_cases hsf : sfTools o 0 (c :: cs) = []
    · have hres : res = .ok none := by
        rw [hlem.1]
        simp [hsf]
      subst hres
      have hout : generateResponse hp hps o (c :: cs)
          = ⟨directSuccessResult rd, ev, [], 1⟩ := by
        simp [generateResponse, generateResponseInner, hconf, loadPersistent, hcn,
              directAttempts, hdirect]
      rw [hout]
      refine ⟨rfl, ?_, fun _ => ⟨rfl, rfl⟩, fun hne => absurd hsf hne⟩
      intro n ts h
      simpa [hsf] using hlem.2 n ts h
    · have hres : res = .ok (some [r]) := by
        rw [hlem.1]
        simp [hsf]
      subst hres
      have hout : generateResponse hp hps o (c :: cs)
          = ⟨{ success := true, response := some (agentMsgsText [r]), error := none,
               usedTools := some true }, ev, [], 0⟩ := by
        simp [generateResponse, generateResponseInner, hconf, loadPersistent, hcn]
      rw [hout]
      exact ⟨rfl, fun n ts h => hlem.2 n ts h, fun hh => absurd hh hsf,
             fun _ => ⟨rfl, rfl⟩⟩

/-- Oracle for the C3 witness: the first tool fails to establish, the
second succeeds, the model answers. -/
def c3Oracle : TurnOracle :=
  { configure := none
    estab := fun k => if k = 0 then .failEarly else .ok ["list_accounts"]
    agent := fun _ => .ok "answer from tools"
    direct := fun _ => .ok "direct answer" }

/-- Tool configurations for the C3 witness. -/
def c3Cfgs : List ToolCfg :=
  [⟨"t-bad", "t-bad", "uv run missing-server", []⟩,
   ⟨"t-good", "t-good", "uv run good-server", []⟩]

/-- Witness for `c3_partial_failure_completes`. -/
theorem c3_partial_failure_witness :
    (generateResponse none none c3Oracle c3Cfgs).result.success = true
    ∧ (generateResponse none none c3Oracle c3Cfgs).result.usedTools = some true
    ∧ (generateResponse none none c3Oracle c3Cfgs).result.response
        = some (respText "answer from tools") :=
  have h := c3_partial_failure_completes c3Oracle c3Cfgs none none
    "answer from tools" "direct answer" rfl rfl rfl
  have h4 := h.2.2.2 (by decide)
  ⟨h.1, h4.1, h4.2⟩

/-- C7: when the model requests a tool call with malformed or missing
required arguments (an error recognized by the tool-use-failure check), the
turn ends successfully with the clarifying assistant message as the
response — no exception and no raw provider error reaches the caller. -/
theorem c7_toolarg_clarifying_message (o : TurnOracle) (cfgs : List ToolCfg)
    (hp hps : Option String) (e : PyErr)
    (hconf : o.configure = none)
    (hagent : o.agent 0 = .raise e)
    (htool : isToolUseFailure e = true)
    (hsf : sfTools o 0 cfgs ≠ []) :
    (generateResponse hp hps o cfgs).result.success = true
    ∧ (generateResponse hp hps o cfgs).result.response = some (clarifyMsg e.msg)
    ∧ (generateResponse hp hps o cfgs).result.usedTools = some true := by
  have hs : agentHandled (o.agent 0) = some (clarifyMsg e.msg) := by
    simp [agentHandled, hagent, htool]
  cases cfgs with
  | nil => exact absurd rfl hsf
  | cons c cs =>
    have hlem := createNested_handled o (clarifyMsg e.msg) (c :: cs) ⟨0, 0, []⟩ hs
    rcases hcn : createNested o (c :: cs) ⟨0, 0, []⟩ with ⟨res, st', ev⟩
    rw [hcn] at hlem
    simp only [List.nil_append] at hlem
    have hres : res = .ok (some [clarifyMsg e.msg]) := by
      rw [hlem.1]
      simp [hsf]
    subst hres
    have hout : generateResponse hp hps o (c :: cs)
        = ⟨{ success := true, response := some (agentMsgsText [clarifyMsg e.msg]),
             error := none, usedTools := some true }, ev, [], 0⟩ := by
      simp [generateResponse, generateResponseInner, hconf, loadPersistent, hcn]
    rw [hout]
    refine ⟨rfl, ?_, rfl⟩
    show some (agentMsgsText [clarifyMsg e.msg]) = some (clarifyMsg e.msg)
    simp [agentMsgsText, respText, clarifyMsg_ne_empty e.msg]

/-- Oracle for the C7 witness: the tool connects, the model makes a tool
call that fails for missing required arguments. -/
def c7Oracle : TurnOracle :=
  { configure := none
    estab := fun _ => .ok ["get_account_details"]
    agent := fun _ => .raise ⟨.groqBadRequest,
      "Failed to call a function: missing required argument account_number"⟩
    direct := fun _ => .ok "d" }

/-- Tool configuration for the C7 witness. -/
def c7Cfgs : List ToolCfg := [⟨"db-tool", "db-tool", "uv run db-server", []⟩]

/-- Witness for `c7_toolarg_clarifying_message`. -/
theorem c7_toolarg_clarifying_witness :
    (generateResponse none none c7Oracle c7Cfgs).result.success = true
    ∧ (generateResponse none none c7Oracle c7Cfgs).result.response
        = some (clarifyMsg "Failed to call a function: missing required argument account_number") :=
  have h := c7_toolarg_clarifying_message c7Oracle c7Cfgs none none
    ⟨.groqBadRequest, "Failed to call a function: missing required argument account_number"⟩
    rfl rfl (by decide) (by decide)
  ⟨h.1, h.2.1⟩

/-- C8: with zero tool configurations and a successful direct model
invocation, `generate_response` returns a successful turn with
`used_tools = false`. -/
theorem c8_no_tools_direct_success (o : TurnOracle) (hp hps : Option String)
    (rd : String)
    (hconf : o.configure = none) (hdirect : o.direct 0 = .ok rd) :
    (generateResponse hp hps o []).result.success = true
    ∧ (generateResponse hp hps o []).result.usedTools = some false
    ∧ (generateResponse hp hps o []).result.response = some (respText rd) := by
  simp [generateResponse, generateResponseInner, hconf, loadPersistent,
        directAttempts, hdirect, directSuccessResult]

/-- Oracle for the C8 witness. -/
def c8Oracle : TurnOracle :=
  { configure := none
    estab := fun _ => .failEarly
    agent := fun _ => .ok "unused"
    direct := fun _ => .ok "hello from the model" }

/-- Witness for `c8_no_tools_direct_success`. -/
theorem c8_no_tools_direct_witness :
    (generateResponse none none c8Oracle []).result.success = true
    ∧ (generateResponse none none c8Oracle []).result.usedTools = some false
    ∧ (generateResponse none none c8Oracle []).result.response
        = some (respText "hello from the model") :=
  c8_no_tools_direct_success c8Oracle none none "hello from the model" rfl rfl

/-! ## C5: the direct-invocation retry policy -/

/-- Shape of the retry loop: at most `fuel` model calls are made (at least
one when fuel is positive), and the sleeps performed are exactly the
exponential-backoff prefix `base_delay * 2 ^ attempt` for the failed
attempts. -/
theorem directAttempts_spec (o : TurnOracle) (hp hps : Option String) :
    ∀ (fuel attempt : Nat),
      (directAttempts o hp hps attempt fuel).2.2 ≤ fuel
      ∧ (fuel ≠ 0 → 1 ≤ (directAttempts o hp hps attempt fuel).2.2)
      ∧ (directAttempts o hp hps attempt fuel).2.1
        = (List.range ((directAttempts o hp hps attempt fuel).2.2 - 1)).map
            (fun i => 1000 * 2 ^ (attempt + i)) := by
  intro fuel
  induction fuel with
  | zero => intro attempt; simp [directAttempts]
  | succ fuel ih =>
    intro attempt
    cases hd : o.direct attempt with
    | ok r => simp [directAttempts, hd]
    | raise e =>
      by_cases hc : isConnectionError e
      · by_cases hf : fuel = 0
        · subst hf
          simp [directAttempts, hd, hc]
        · rcases h1 : directAttempts o hp hps (attempt + 1) fuel with ⟨res, ds, c⟩
          have hih := ih (attempt + 1)
          rw [h1] at hih
          obtain ⟨hle0, hpos0, hds0⟩ := hih
          have hle : c ≤ fuel := hle0
          have hds : ds = (List.range (c - 1)).map (fun i => 1000 * 2 ^ (attempt + 1 + i)) := hds0
          have hc1 : 1 ≤ c := hpos0 hf
          have hstep : directAttempts o hp hps attempt (fuel + 1)
              = (res, (1000 * 2 ^ attempt) :: ds, c + 1) := by
            simp [directAttempts, hd, hc, hf, h1]
          rw [hstep]
          refine ⟨?_, fun _ => ?_, ?_⟩
          · show c + 1 ≤ fuel + 1
            omega
          · show 1 ≤ c + 1
            omega
          · show (1000 * 2 ^ attempt) :: ds
                = (List.range (c + 1 - 1)).map (fun i => 1000 * 2 ^ (attempt + i))
            rw [hds]
            obtain ⟨m, hm⟩ : ∃ m, c = m + 1 := ⟨c - 1, by omega⟩
            subst hm
            simp only [Nat.add_sub_cancel]
            rw [List.range_succ_eq_map, List.map_cons, List.map_map]
            refine congrArg₂ _ (by simp) ?_
            apply List.map_congr_left
            intro i _
            show 1000 * 2 ^ (attempt + 1 + i) = 1000 * 2 ^ (attempt + Nat.succ i)
            rw [show attempt + Nat.succ i = attempt + 1 + i from by omega]
      · simp [directAttempts, hd, hc]

/-- C5: on a turn that reaches direct invocation, at most 3 model calls are
made; the inter-attempt delays are exactly the exponential backoff
`1000 * 2 ^ i` ms starting at 1 second, hence strictly increasing; when all
three attempts raise recognized transport errors the turn returns the
structured `success = false` result whose error string carries
connection/proxy guidance instead of raising; and a non-network error stops
the retrying immediately and goes to the outer boundary. -/
theorem c5_model_retry_policy (o : TurnOracle) (hp hps : Option String)
    (hconf : o.configure = none) :
    (generateResponse hp hps o []).directCalls ≤ 3
    ∧ (generateResponse hp hps o []).delays
      = (List.range ((generateResponse hp hps o []).directCalls - 1)).map
          (fun i => 1000 * 2 ^ i)
    ∧ List.Chain' (· < ·) (generateResponse hp hps o []).delays
    ∧ ((∀ k, k < 3 → ∃ e, o.direct k = .raise e ∧ isConnectionError e = true) →
        (generateResponse hp hps o []).result = connExhaustedResult hp hps
        ∧ (generateResponse hp hps o []).result.success = false
        ∧ containsSubstr (connExhaustedError hp hps) "proxy" = true)
    ∧ (∀ k e, k < 3 → o.direct k = .raise e → isConnectionError e = false →
        (∀ j, j < k → ∃ e', o.direct j = .raise e' ∧ isConnectionError e' = true) →
        (generateResponse hp hps o []).result = outerHandler e
        ∧ (generateResponse hp hps o []).directCalls = k + 1) := by
  rcases hda : directAttempts o hp hps 0 3 with ⟨res, ds, c⟩
  have hspec := directAttempts_spec o hp hps 3 0
  rw [hda] at hspec
  obtain ⟨hle0, _hpos0, hds0⟩ := hspec
  have hle : c ≤ 3 := hle0
  have hds : ds = (List.range (c - 1)).map (fun i => 1000 * 2 ^ (0 + i)) := hds0
  have hdel : (generateResponse hp hps o []).delays = ds := by
    cases res <;>
      simp [generateResponse, generateResponseInner, hconf, loadPersistent, hda]
  have hcalls : (generateResponse hp hps o []).directCalls = c := by
    cases res <;>
      simp [generateResponse, generateResponseInner, hconf, loadPersistent, hda]
  have hresOk : ∀ tr, res = .ok tr → (generateResponse hp hps o []).result = tr := by
    intro tr htr
    subst htr
    simp [generateResponse, generateResponseInner, hconf, loadPersistent, hda]
  have hresErr : ∀ e, res = .error e →
      (generateResponse hp hps o []).result = outerHandler e := by
    intro e he
    subst he
    simp [generateResponse, generateResponseInner, hconf, loadPersistent, hda]
  have hproxy : containsSubstr (connExhaustedError hp hps) "proxy" = true := by
    unfold connExhaustedError
    exact containsSubstr_append_left _ _ _ (by decide)
  refine ⟨by omega, ?_, ?_, ?_, ?_⟩
  · rw [hdel, hcalls, hds]
    simp
  · rw [hdel, hds]
    have hchain : ∀ m : Nat, m ≤ 2 →
        List.Chain' (· < ·) ((List.range m).map (fun i => 1000 * 2 ^ (0 + i))) := by
      intro m hm
      interval_cases m <;> norm_num [List.range_succ, List.chain'_cons]
    exact hchain (c - 1) (by omega)
  · intro hall
    obtain ⟨e0, h0, hc0⟩ := hall 0 (by omega)
    obtain ⟨e1, h1, hc1⟩ := hall 1 (by omega)
    obtain ⟨e2, h2, hc2⟩ := hall 2 (by omega)
    have hcomp : directAttempts o hp hps 0 3
        = (.ok (connExhaustedResult hp hps), [1000 * 2 ^ 0, 1000 * 2 ^ 1], 3) := by
      simp [directAttempts, h0, hc0, h1, hc1, h2, hc2]
    rw [hda] at hcomp
    have hr : res = .ok (connExhaustedResult hp hps) := congrArg Prod.fst hcomp
    refine ⟨hresOk _ hr, ?_, hproxy⟩
    rw [hresOk _ hr]
    rfl
  · intro k e hk hke hnc hprev
    interval_cases k
    · have hcomp : directAttempts o hp hps 0 3 = (.error e, [], 1) := by
        simp [directAttempts, hke, hnc]
      rw [hda] at hcomp
      have hr : res = .error e := congrArg Prod.fst hcomp
      have hc' : c = 1 := congrArg (fun p => p.2.2) hcomp
      exact ⟨hresErr _ hr, by rw [hcalls, hc']⟩
    · obtain ⟨e0, h0, hc0⟩ := hprev 0 (by omega)
      have hcomp : directAttempts o hp hps 0 3 = (.error e, [1000 * 2 ^ 0], 2) := by
        simp [directAttempts, h0, hc0, hke, hnc]
      rw [hda] at hcomp
      have hr : res = .error e := congrArg Prod.fst hcomp
      have hc' : c = 2 := congrArg (fun p => p.2.2) hcomp
      exact ⟨hresErr _ hr, by rw [hcalls, hc']⟩
    · obtain ⟨e0, h0, hc0⟩ := hprev 0 (by omega)
      obtain ⟨e1, h1, hc1⟩ := hprev 1 (by omega)
      have hcomp : directAttempts o hp hps 0 3
          = (.error e, [1000 * 2 ^ 0, 1000 * 2 ^ 1], 3) := by
        simp [directAttempts, h0, hc0, h1, hc1, hke, hnc]
      rw [hda] at hcomp
      have hr : res = .error e := congrArg Prod.fst hcomp
      have hc' : c = 3 := congrArg (fun p => p.2.2) hcomp
      exact ⟨hresErr _ hr, by rw [hcalls, hc']⟩

/-- Oracle for the C5 witness: every direct attempt fails with a transport
error. -/
def c5Oracle : TurnOracle :=
  { configure := none
    estab := fun _ => .failEarly
    agent := fun _ => .ok "x"
    direct := fun _ => .raise ⟨.httpxConnect, "connect failed"⟩ }

/-- Witness for `c5_model_retry_policy`. -/
theorem c5_model_retry_witness :
    (generateResponse none none c5Oracle []).directCalls ≤ 3
    ∧ (generateResponse none none c5Oracle []).result = connExhaustedResult none none
    ∧ containsSubstr (connExhaustedError none none) "proxy" = true :=
  have h := c5_model_retry_policy c5Oracle none none rfl
  have h4 := h.2.2.2.1 (fun _k _hk => ⟨⟨.httpxConnect, "connect failed"⟩, rfl, rfl⟩)
  ⟨h.1, h4.1, h4.2.2⟩

/-! ## C6: the outer exception boundary -/

/-- C6: any exception escaping the inner components of `generate_response`
is converted at the outer boundary into a `success = false` result whose
response is one of the two generic user-safe apology strings — the
exception itself never reaches the caller (the handler is a total
function into `TurnResult`). -/
theorem c6_outer_boundary_catches (o : TurnOracle) (cfgs : List ToolCfg)
    (hp hps : Option String) (e : PyErr)
    (hinner : (generateResponseInner hp hps o cfgs).1 = .error e) :
    (generateResponse hp hps o cfgs).result = outerHandler e
    ∧ (generateResponse hp hps o cfgs).result.success = false
    ∧ ((generateResponse hp hps o cfgs).result.response = some netHelpApologyResp
        ∨ (generateResponse hp hps o cfgs).result.response = some genericApologyResp) := by
  rcases hg : generateResponseInner hp hps o cfgs with ⟨res, ev, ds, c⟩
  rw [hg] at hinner
  have hr : res = .error e := hinner
  subst hr
  have hout : generateResponse hp hps o cfgs = ⟨outerHandler e, ev, ds, c⟩ := by
    simp [generateResponse, hg]
  rw [hout]
  by_cases h : looksNetworkRelated e.msg
  · exact ⟨rfl, by simp [outerHandler, h], Or.inl (by simp [outerHandler, h])⟩
  · exact ⟨rfl, by simp [outerHandler, h], Or.inr (by simp [outerHandler, h])⟩

/-- Oracle for the C6 witness: `configure_llm` raises an unclassified
error. -/
def c6Oracle : TurnOracle :=
  { configure := some ⟨.otherErr, "boom"⟩
    estab := fun _ => .failEarly
    agent := fun _ => .ok "x"
    direct := fun _ => .ok "d" }

/-- Witness for `c6_outer_boundary_catches`. -/
theorem c6_outer_boundary_witness :
    (generateResponse none none c6Oracle []).result = outerHandler ⟨.otherErr, "boom"⟩
    ∧ (generateResponse none none c6Oracle []).result.success = false :=
  have h := c6_outer_boundary_catches c6Oracle [] none none ⟨.otherErr, "boom"⟩ rfl
  ⟨h.1, h.2.1⟩

/-! ## C4, C9: the MCP connection retry loop and the concurrency semaphore -/

/-- `StdioServerParameters`, as built by `get_server_params`. -/
structure StdioParams where
  command : String
  args : List String
  env : List (String × String)
  deriving DecidableEq, Repr

/-- The value returned by `stdio_client(server_params)`: an async context
manager that has NOT been entered.  Constructing it performs no I/O and
cannot raise; the subprocess is spawned only when the context is entered
(`async with`). -/
structure ConnCM where
  params : StdioParams
  deriving DecidableEq, Repr

/-- `stdio_client` call: pure construction of the context manager. -/
def stdioClient (p : StdioParams) : ConnCM := ⟨p⟩

/-- The retry loop of `_create_mcp_connection_with_retry` (lines
1057-1079), parameterized by the loop body so its error handling is
explicit: before each retry (`attempt > 0`) it sleeps
`base_delay * 2 ^ (attempt - 1)`; a failing body on a non-final attempt
adds the contention penalty `1.0 * (attempt + 1)` seconds when the error
message mentions resource contention; a failing final attempt re-raises.
Delays are in milliseconds; `fuel` is `max_retries - attempt`. -/
def mcpRetryLoop (body : Nat → Except PyErr ConnCM) (baseDelayMs : Nat) :
    Nat → Nat → List Nat → Except PyErr ConnCM × List Nat
  | attempt, fuel + 1, sleeps =>
    let sleeps1 := if attempt > 0 then sleeps ++ [baseDelayMs * 2 ^ (attempt - 1)]
                   else sleeps
    match body attempt with
    | .ok cm => (.ok cm, sleeps1)
    | .error e =>
      if fuel = 0 then (.error e, sleeps1)
      else
        let sleeps2 :=
          if containsSubstr e.msg "Resource temporarily unavailable"
              || containsSubstr e.msg "BlockingIOError" then
            sleeps1 ++ [1000 * (attempt + 1)]
          else sleeps1
        mcpRetryLoop body baseDelayMs (attempt + 1) fuel sleeps2
  | _, 0, sleeps => (.error ⟨.otherErr, "retry loop exhausted"⟩, sleeps)

/-- `_create_mcp_connection_with_retry`: the loop body is
`return stdio_client(server_params)` — a pure construction that cannot
raise, so the first iteration always returns.  `max_retries = 3`,
`base_delay = 0.5` s. -/
def createMcpConnectionWithRetry (p : StdioParams) :
    Except PyErr ConnCM × List Nat :=
  mcpRetryLoop (fun _ => .ok (stdioClient p)) 500 0 3 []

/-- `_managed_mcp_session` (lines 1081-1111): obtains the (unentered)
context manager from the retry helper, then enters it with `async with` —
the subprocess spawn and handshake happen HERE, outside the retry loop;
a failure propagates (the except clause only logs and re-raises).  Returns
the outcome, the number of spawn attempts performed, and the sleeps. -/
def managedMcpSession (spawn : Nat → Option PyErr) (p : StdioParams) :
    Except PyErr Unit × Nat × List Nat :=
  match createMcpConnectionWithRetry p with
  | (.error e, sleeps) => (.error e, 0, sleeps)
  | (.ok _cm, sleeps) =>
    match spawn 0 with
    | some e => (.error e, 1, sleeps)
    | none => (.ok (), 1, sleeps)

/-- Server parameters for the C4 evaluation. -/
def c4Params : StdioParams := ⟨"uv", ["run", "openapi_mcp_server"], []⟩

/-- A transient contention failure: the first subprocess spawn raises
`BlockingIOError` ("Resource temporarily unavailable"); a second attempt
would succeed. -/
def c4Spawn : Nat → Option PyErr :=
  fun k => if k = 0 then
    some ⟨.otherErr, "BlockingIOError: Resource temporarily unavailable"⟩
  else none

/-- C4 fails on the code: since the loop body only constructs the context
manager, `_create_mcp_connection_with_retry` returns on its first
iteration with no sleeps for EVERY input, and a transient
resource-contention error raised by the actual spawn propagates out of
`_managed_mcp_session` after a single attempt — it is never retried and no
backoff or penalty delay ever happens. -/
theorem c4_retry_never_triggers :
    (∀ p : StdioParams, createMcpConnectionWithRetry p = (.ok (stdioClient p), []))
    ∧ managedMcpSession c4Spawn c4Params
      = (.error ⟨.otherErr, "BlockingIOError: Resource temporarily unavailable"⟩, 1, []) :=
  ⟨fun _ => rfl, rfl⟩

/-- Events of one `_managed_mcp_session` establishment, with the semaphore
operations of `_create_mcp_connection_with_retry` made explicit. -/
inductive SemEvent where
  | semAcquire    -- `async with self._connection_semaphore:` entered
  | ctorReturn    -- `return stdio_client(server_params)`
  | semRelease    -- the semaphore scope exits when the helper returns
  | spawnBegin    -- `async with connection_manager` starts the subprocess
  | spawnFailed   -- the spawn raised
  | handshakeOk   -- streams obtained
  | sessionReady  -- `await session.initialize()` completed
  deriving DecidableEq, Repr

/-- The establishment sequence of `_managed_mcp_session`: the semaphore
slot is held only around the construction of the context manager and is
released when `_create_mcp_connection_with_retry` returns; the subprocess
spawn and handshake run afterwards with no slot held. -/
def establishmentTrace (spawnOk : Bool) : List SemEvent :=
  [.semAcquire, .ctorReturn, .semRelease, .spawnBegin]
  ++ (if spawnOk then [.handshakeOk, .sessionReady] else [.spawnFailed])

/-- `occursBefore a b tr`: the first occurrence of `a` comes strictly
before any occurrence of `b`. -/
def occursBefore (a b : SemEvent) : List SemEvent → Bool
  | [] => false
  | e :: t => if e = a then t.contains b else if e = b then false else occursBefore a b t

/-- The `AIChatUtility` state relevant to connection management
(`__init__` lines 209-212): each instance creates its own
`asyncio.Semaphore(3)`; `freshId` identifies the newly allocated
semaphore object. -/
structure AIChatUtilityConn where
  semaphoreId : Nat
  semaphoreCapacity : Nat
  maxRetries : Nat
  baseDelayMs : Nat
  deriving DecidableEq, Repr

/-- `AIChatUtility.__init__` connection-management fields. -/
def mkAIChatUtilityConn (freshId : Nat) : AIChatUtilityConn :=
  { semaphoreId := freshId, semaphoreCapacity := 3, maxRetries := 3, baseDelayMs := 500 }

/-- `chat_router.py` line 454: a NEW `AIChatUtility` is constructed for
every chat request, so each in-flight turn allocates its own semaphore. -/
def chatRequestUtility (requestId : Nat) : AIChatUtilityConn :=
  mkAIChatUtilityConn requestId

/-- C9 counterexample: in the establishment sequence the semaphore slot is
released BEFORE the subprocess spawn begins (so it is not held for the
whole establishment), and two concurrent requests hold two different
semaphores (the bound is per-instance, not process-wide). -/
theorem c9_semaphore_counterexample :
    occursBefore .spawnBegin .semRelease (establishmentTrace true) = false
    ∧ occursBefore .semRelease .spawnBegin (establishmentTrace true) = true
    ∧ (chatRequestUtility 0).semaphoreId ≠ (chatRequestUtility 1).semaphoreId := by
  refine ⟨rfl, rfl, by decide⟩

/-- C9 (amended): each `AIChatUtility` instance — one per chat request —
owns its own counting semaphore of capacity 3; the slot is acquired around
the construction of the lazy connection context manager and released
before the subprocess spawn and handshake, on both spawn outcomes. -/
theorem c9_semaphore_actual (spawnOk : Bool) (r1 r2 : Nat) :
    occursBefore .semAcquire .semRelease (establishmentTrace spawnOk) = true
    ∧ occursBefore .semRelease .spawnBegin (establishmentTrace spawnOk) = true
    ∧ (chatRequestUtility r1).semaphoreCapacity = 3
    ∧ ((chatRequestUtility r1).semaphoreId = (chatRequestUtility r2).semaphoreId
        ↔ r1 = r2) := by
  refine ⟨?_, ?_, rfl, Iff.rfl⟩ <;> cases spawnOk <;> rfl

end VikiAi
